import Mathlib

/-!
Verification of `src/visualize.py` from the DMCVQKD repository.

The script loads two CSV tables (`rate_example.csv`, the non-bent dataset
bound to the Python variable `data`, and `rate_side_bend.csv`, the bent
dataset bound to `data_scw`) and renders three matplotlib figures.

We shallowly embed the script: the module body becomes an explicit list of
statements (`program`), executed in order by a small-step interpreter
(`step` / `runStmts`) over an explicit state (`PState`) holding the Python
variable bindings and the matplotlib global figure list.  File access goes
through an abstract file system `FS : String → Option String`; a missing
file raises `Err.fileNotFound` (Python `FileNotFoundError`), a missing
column raises `Err.keyError` (pandas `KeyError`), mirroring the fact that
the script catches nothing.
-/

/-- A loaded table: a header of column names and the data rows, every
value kept as the raw text field.  Mirrors the pandas `DataFrame` at the
granularity the script uses (column lookup by name only). -/
structure DataFrame where
  cols : List String
  rows : List (List String)
deriving DecidableEq, Repr

/-- Split a character list at every occurrence of `sep` (like Python's
`str.split(sep)`): `splitOnChar ',' "a,b".toList = [['a'],['b']]`. -/
def splitOnChar (sep : Char) : List Char → List (List Char)
  | [] => [[]]
  | c :: cs =>
    let r := splitOnChar sep cs
    if c = sep then [] :: r
    else
      match r with
      | [] => [[c]]
      | g :: gs => (c :: g) :: gs

/-- Split one line of text into fields at the separator character. -/
def splitLine (sep : Char) (l : String) : List String :=
  (splitOnChar sep l.toList).map List.asString

/-- The physical lines of a file's content, with blank lines dropped
(pandas `read_csv` skips blank lines). -/
def linesOf (content : String) : List String :=
  ((splitOnChar '\n' content.toList).map List.asString).filter (fun l => l ≠ "")

/-- Model of `pd.read_csv(path, sep): the first line is the header row
giving the column names, every further line is a data row. -/
def read_csv (content : String) (sep : Char) : DataFrame :=
  match linesOf content with
  | [] => { cols := [], rows := [] }
  | h :: t => { cols := splitLine sep h, rows := t.map (splitLine sep) }

/-- Column access `df[c]`: locate `c` in the header and project every row
onto that index (a short row yields the empty field, as pandas yields NaN).
`none` models the pandas `KeyError` on a missing column. -/
def DataFrame.getCol (df : DataFrame) (c : String) : Option (List String) :=
  match df.cols.findIdx? (fun x => x = c) with
  | none => none
  | some i => some (df.rows.map (fun r => r.getD i ""))

/-- The three module-level Python variables of the script. -/
inductive Var where
  | data      -- the non-bent table, loaded from rate_example.csv
  | data_scw  -- the bent table, loaded from rate_side_bend.csv
  | d         -- bound by `d = data.head`
deriving DecidableEq, Repr

/-- A Python value other than a table: `d = data.head` stores the bound
method object (receiver plus attribute name) without calling it. -/
inductive PyVal where
  | boundMethod (receiver : DataFrame) (name : String)
deriving DecidableEq, Repr

/-- One plotted line: the x and y series and the style arguments passed at
the call site (`'--'` ↦ `dashed = true`, otherwise the solid default). -/
structure Line where
  x : List String
  y : List String
  dashed : Bool
  marker : String
  color : String
  label : String
deriving DecidableEq, Repr

/-- One axes object: its plotted lines and cosmetic state. -/
structure Axis where
  lines : List Line
  xlabelText : Option String
  ylabelText : Option String
  titleText : Option String
  yLog : Bool
  legendOn : Bool
  gridOn : Bool
deriving DecidableEq, Repr

/-- A fresh axes object as matplotlib creates it. -/
def Axis.fresh : Axis :=
  { lines := [], xlabelText := none, ylabelText := none, titleText := none,
    yLog := false, legendOn := false, gridOn := false }

instance : Inhabited Axis := ⟨Axis.fresh⟩

/-- One matplotlib figure: its subplot grid and axes list, the `sharex`
flag, the `figsize` argument, and whether `tight_layout` was applied. -/
structure Figure where
  nrows : Nat
  ncols : Nat
  axes : List Axis
  sharex : Bool
  figsize : Option (Nat × Nat)
  tightLayoutApplied : Bool
deriving DecidableEq, Repr

/-- `plt.figure()`: one fresh implicit axes, 1×1 grid, no sharing. -/
def Figure.fresh : Figure :=
  { nrows := 1, ncols := 1, axes := [Axis.fresh], sharex := false,
    figsize := none, tightLayoutApplied := false }

/-- The uncaught exceptions the script can die with. -/
inductive Err where
  | fileNotFound (path : String)       -- FileNotFoundError from read_csv
  | keyError (src : Var) (col : String) -- KeyError from df[col]
  | nameError (v : Var)                -- unbound variable
  | noCurrentFigure
  | noAxis (i : Nat)
deriving DecidableEq, Repr

/-- Observable events of a run, in execution order. -/
inductive Event where
  | load (path : String)    -- a read_csv call
  | newFigure (idx : Nat)   -- plt.figure() / plt.subplots()
  | render (fig : Nat)      -- any plotting or styling call on figure `fig`
  | display                 -- plt.show()
deriving DecidableEq, Repr

/-- The statements of `visualize.py`, one constructor per distinct
statement form appearing in the module body. -/
inductive Stmt where
  | readCsvTo (target : Var) (path : String) (sep : Char)
  | figure
  | semilogy (src : Var) (xcol ycol : String) (dashed : Bool)
      (marker color label : String)
  | xlabel (s : String)
  | ylabel (s : String)
  | legend
  | grid
  | tightLayout
  | pltShow
  | subplots (nrows ncols : Nat) (figsize : Nat × Nat) (sharex : Bool)
  | bindHead (src : Var)
  | axPlot (i : Nat) (src : Var) (xcol ycol : String) (dashed : Bool)
      (marker color label : String)
  | axSetYlabel (i : Nat) (s : String)
  | axSetXlabel (i : Nat) (s : String)
  | axSetTitle (i : Nat) (s : String)
  | axSetYscaleLog (i : Nat)
  | axLegend (i : Nat)
  | axGrid (i : Nat)
deriving DecidableEq, Repr

/-- The module body of `visualize.py`, statement by statement, in source
order.  Commented-out lines of the source (the non-bent curves of figure 3)
do not execute and hence do not appear. -/
def program : List Stmt :=
  [ .readCsvTo .data "rate_example.csv" ',',
    .readCsvTo .data_scw "rate_side_bend.csv" ',',
    .figure,
    .semilogy .data_scw "D" "R_dl" true "o" "r" "БЧ",
    .xlabel "Distance km",
    .ylabel "Rate",
    .legend,
    .pltShow,
    .figure,
    .semilogy .data "D" "R_dl" false "o" "b" "НЕ БЧ",
    .semilogy .data_scw "D" "R_dl" true "o" "r" "БЧ",
    .ylabel "R_dl",
    .legend,
    .grid,
    .tightLayout,
    .pltShow,
    .subplots 3 1 (10, 15) true,
    .bindHead .data,
    .axPlot 0 .data_scw "D" "amp" true "o" "r" "БЧ",
    .axSetYlabel 0 "amp",
    .axSetTitle 0 "Зависимости от D",
    .axLegend 0,
    .axGrid 0,
    .axPlot 1 .data_scw "D" "R_dl" true "o" "r" "БЧ",
    .axSetYscaleLog 1,
    .axSetYlabel 1 "R_dl",
    .axLegend 1,
    .axGrid 1,
    .axPlot 2 .data_scw "D" "deltaEC" true "o" "r" "БЧ",
    .axSetXlabel 2 "D",
    .axSetYlabel 2 "deltaEC",
    .axLegend 2,
    .axGrid 2,
    .tightLayout,
    .pltShow ]

/-- Interpreter state: the three variable bindings plus matplotlib's
global figure list (the current figure is the last one) and the event
trace. -/
structure PState where
  data : Option DataFrame
  data_scw : Option DataFrame
  dvar : Option PyVal
  figs : List Figure
  trace : List Event
deriving DecidableEq, Repr

/-- The state before the first statement runs. -/
def initState : PState :=
  { data := none, data_scw := none, dvar := none, figs := [], trace := [] }

/-- The abstract file system: path to file content, `none` if absent. -/
def FS : Type := String → Option String

/-- Read a table-valued variable, mirroring a Python name lookup. -/
def getVar (st : PState) (v : Var) : Except Err DataFrame :=
  match v with
  | .data =>
    match st.data with
    | some t => .ok t
    | none => .error (.nameError .data)
  | .data_scw =>
    match st.data_scw with
    | some t => .ok t
    | none => .error (.nameError .data_scw)
  | .d => .error (.nameError .d)

/-- `df[c]` with the pandas `KeyError` surfaced as `Err.keyError`. -/
def getColE (src : Var) (t : DataFrame) (c : String) : Except Err (List String) :=
  match t.getCol c with
  | some l => .ok l
  | none => .error (.keyError src c)

/-- Update the current (= last created) figure; matplotlib state errors if
none exists (the program always creates one first). -/
def modifyLast (f : Figure → Except Err Figure) : List Figure → Except Err (List Figure)
  | [] => .error .noCurrentFigure
  | [a] =>
    match f a with
    | .ok a' => .ok [a']
    | .error e => .error e
  | a :: b :: rest =>
    match modifyLast f (b :: rest) with
    | .ok l' => .ok (a :: l')
    | .error e => .error e

/-- Update axes number `i` of a figure (`axes[i]`). -/
def Figure.modAx (fig : Figure) (i : Nat) (f : Axis → Axis) : Except Err Figure :=
  if h : i < fig.axes.length then
    .ok { fig with axes := fig.axes.set i (f (fig.axes.get ⟨i, h⟩)) }
  else .error (.noAxis i)

/-- Store a freshly loaded table in its variable. -/
def setVar (st : PState) (v : Var) (t : DataFrame) : PState :=
  match v with
  | .data => { st with data := some t }
  | .data_scw => { st with data_scw := some t }
  | .d => st

/-- Append an event to the trace. -/
def record (st : PState) (e : Event) : PState :=
  { st with trace := st.trace ++ [e] }

/-- Index of the current figure (for trace events). -/
def curFig (st : PState) : Nat := st.figs.length - 1

/-- Run a styling/plotting operation on the current figure and record a
render event for it. -/
def onCurFig (st : PState) (f : Figure → Except Err Figure) : Except Err PState :=
  match modifyLast f st.figs with
  | .ok figs' => .ok (record { st with figs := figs' } (.render (curFig st)))
  | .error e => .error e

/-- One step of the interpreter: the semantics of each statement form,
translated from the corresponding source line. -/
def step (fs : FS) (st : PState) (s : Stmt) : Except Err PState :=
  match s with
  | .readCsvTo tgt path sep =>
    match fs path with
    | none => .error (.fileNotFound path)
    | some content => .ok (record (setVar st tgt (read_csv content sep)) (.load path))
  | .figure =>
    .ok (record { st with figs := st.figs ++ [Figure.fresh] } (.newFigure st.figs.length))
  | .semilogy src x y dashed marker color label =>
    match getVar st src with
    | .error e => .error e
    | .ok t =>
      match getColE src t x with
      | .error e => .error e
      | .ok xs =>
        match getColE src t y with
        | .error e => .error e
        | .ok ys =>
          onCurFig st (fun fig => fig.modAx 0 (fun a =>
            { a with lines := a.lines ++ [⟨xs, ys, dashed, marker, color, label⟩],
                     yLog := true }))
  | .xlabel s => onCurFig st (fun fig => fig.modAx 0 (fun a => { a with xlabelText := some s }))
  | .ylabel s => onCurFig st (fun fig => fig.modAx 0 (fun a => { a with ylabelText := some s }))
  | .legend => onCurFig st (fun fig => fig.modAx 0 (fun a => { a with legendOn := true }))
  | .grid => onCurFig st (fun fig => fig.modAx 0 (fun a => { a with gridOn := true }))
  | .tightLayout => onCurFig st (fun fig => .ok { fig with tightLayoutApplied := true })
  | .pltShow => .ok (record st .display)
  | .subplots nr nc fsz sx =>
    .ok (record
      { st with figs := st.figs ++
          [{ nrows := nr, ncols := nc, axes := List.replicate (nr * nc) Axis.fresh,
             sharex := sx, figsize := some fsz, tightLayoutApplied := false }] }
      (.newFigure st.figs.length))
  | .bindHead src =>
    match getVar st src with
    | .error e => .error e
    | .ok t => .ok { st with dvar := some (.boundMethod t "head") }
  | .axPlot i src x y dashed marker color label =>
    match getVar st src with
    | .error e => .error e
    | .ok t =>
      match getColE src t x with
      | .error e => .error e
      | .ok xs =>
        match getColE src t y with
        | .error e => .error e
        | .ok ys =>
          onCurFig st (fun fig => fig.modAx i (fun a =>
            { a with lines := a.lines ++ [⟨xs, ys, dashed, marker, color, label⟩] }))
  | .axSetYlabel i s => onCurFig st (fun fig => fig.modAx i (fun a => { a with ylabelText := some s }))
  | .axSetXlabel i s => onCurFig st (fun fig => fig.modAx i (fun a => { a with xlabelText := some s }))
  | .axSetTitle i s => onCurFig st (fun fig => fig.modAx i (fun a => { a with titleText := some s }))
  | .axSetYscaleLog i => onCurFig st (fun fig => fig.modAx i (fun a => { a with yLog := true }))
  | .axLegend i => onCurFig st (fun fig => fig.modAx i (fun a => { a with legendOn := true }))
  | .axGrid i => onCurFig st (fun fig => fig.modAx i (fun a => { a with gridOn := true }))

/-- Run a statement list in order; the first uncaught error aborts the
process. -/
def runStmts (fs : FS) (st : PState) : List Stmt → Except Err PState
  | [] => .ok st
  | s :: rest =>
    match step fs st s with
    | .error e => .error e
    | .ok st' => runStmts fs st' rest

/-- Run the whole script. -/
def run (fs : FS) : Except Err PState :=
  runStmts fs initState program

/-- Run only the first `n` statements of the script. -/
def runUpTo (fs : FS) (n : Nat) : Except Err PState :=
  runStmts fs initState (program.take n)

/-! ### The figures the script constructs, symbolically

`fig1Expected .. fig3Expected` state, in terms of the loaded columns, what
each figure looks like after a successful run; `run_characterization`
proves the whole run against them. -/

/-- Figure 1 as the script builds it, in terms of the bent table's `D` and
`R_dl` columns. -/
def fig1Expected (xs2 ys2 : List String) : Figure :=
  { nrows := 1, ncols := 1,
    axes := [{ lines := [⟨xs2, ys2, true, "o", "r", "БЧ"⟩],
               xlabelText := some "Distance km", ylabelText := some "Rate",
               titleText := none, yLog := true, legendOn := true, gridOn := false }],
    sharex := false, figsize := none, tightLayoutApplied := false }

/-- Figure 2 as the script builds it: the non-bent curve (solid, blue)
overlaid with the bent curve (dashed, red) on one log-y axes. -/
def fig2Expected (xs1 ys1 xs2 ys2 : List String) : Figure :=
  { nrows := 1, ncols := 1,
    axes := [{ lines := [⟨xs1, ys1, false, "o", "b", "НЕ БЧ"⟩,
                         ⟨xs2, ys2, true, "o", "r", "БЧ"⟩],
               xlabelText := none, ylabelText := some "R_dl",
               titleText := none, yLog := true, legendOn := true, gridOn := true }],
    sharex := false, figsize := none, tightLayoutApplied := true }

/-- Figure 3 as the script builds it: three stacked panels (amp, R_dl on a
log axis, deltaEC), each with only the bent curve. -/
def fig3Expected (xs2 ys2 amps decs : List String) : Figure :=
  { nrows := 3, ncols := 1,
    axes := [{ lines := [⟨xs2, amps, true, "o", "r", "БЧ"⟩],
               xlabelText := none, ylabelText := some "amp",
               titleText := some "Зависимости от D", yLog := false,
               legendOn := true, gridOn := true },
             { lines := [⟨xs2, ys2, true, "o", "r", "БЧ"⟩],
               xlabelText := none, ylabelText := some "R_dl",
               titleText := none, yLog := true, legendOn := true, gridOn := true },
             { lines := [⟨xs2, decs, true, "o", "r", "БЧ"⟩],
               xlabelText := some "D", ylabelText := some "deltaEC",
               titleText := none, yLog := false, legendOn := true, gridOn := true }],
    sharex := true, figsize := some (10, 15), tightLayoutApplied := true }

/-- The event trace of a successful run: each figure is rendered and then
displayed at once by its own `plt.show()` call. -/
def expectedTrace : List Event :=
  [.load "rate_example.csv", .load "rate_side_bend.csv",
   .newFigure 0, .render 0, .render 0, .render 0, .render 0, .display,
   .newFigure 1, .render 1, .render 1, .render 1, .render 1, .render 1, .render 1, .display,
   .newFigure 2, .render 2, .render 2, .render 2, .render 2, .render 2, .render 2,
   .render 2, .render 2, .render 2, .render 2, .render 2, .render 2, .render 2,
   .render 2, .render 2, .render 2, .display]

/-- The final interpreter state of a successful run. -/
def finalState (c1 c2 : String) (xs1 ys1 xs2 ys2 amps decs : List String) : PState :=
  { data := some (read_csv c1 ','),
    data_scw := some (read_csv c2 ','),
    dvar := some (.boundMethod (read_csv c1 ',') "head"),
    figs := [fig1Expected xs2 ys2, fig2Expected xs1 ys1 xs2 ys2,
             fig3Expected xs2 ys2 amps decs],
    trace := expectedTrace }

/-- Characterization of a successful run: when both files are present, the
non-bent table has columns `D` and `R_dl` and the bent table has columns
`D`, `R_dl`, `amp` and `deltaEC`, the script runs to completion and its
final state is `finalState`. -/
theorem run_characterization (fs : FS) (c1 c2 : String)
    (xs1 ys1 xs2 ys2 amps decs : List String)
    (h1 : fs "rate_example.csv" = some c1)
    (h2 : fs "rate_side_bend.csv" = some c2)
    (hxs1 : (read_csv c1 ',').getCol "D" = some xs1)
    (hys1 : (read_csv c1 ',').getCol "R_dl" = some ys1)
    (hxs2 : (read_csv c2 ',').getCol "D" = some xs2)
    (hys2 : (read_csv c2 ',').getCol "R_dl" = some ys2)
    (hamps : (read_csv c2 ',').getCol "amp" = some amps)
    (hdecs : (read_csv c2 ',').getCol "deltaEC" = some decs) :
    run fs = .ok (finalState c1 c2 xs1 ys1 xs2 ys2 amps decs) := by
  simp [run, program, runStmts, step, getVar, getColE, setVar, record, onCurFig,
        modifyLast, Figure.modAx, curFig, initState, Figure.fresh, Axis.fresh,
        h1, h2, hxs1, hys1, hxs2, hys2, hamps, hdecs, finalState,
        fig1Expected, fig2Expected, fig3Expected, expectedTrace,
        List.replicate, List.set]

/-! ### Concrete inputs (the end-to-end scenario of the spec) -/

/-- The non-bent file content of the spec's end-to-end scenario. -/
def csv1 : String := "D,R_dl,amp,deltaEC\n10,0.9,1,0.1\n20,0.5,2,0.2\n30,0.1,3,0.3"

/-- The bent file content of the spec's end-to-end scenario. -/
def csv2 : String := "D,R_dl,amp,deltaEC\n10,0.8,1.1,0.11\n20,0.4,2.1,0.21\n30,0.05,3.1,0.31"

/-- A file system holding exactly the two input files. -/
def fs0 : FS := fun p =>
  if p = "rate_example.csv" then some csv1
  else if p = "rate_side_bend.csv" then some csv2
  else none

/-- Project figure `i` out of a run result (`none` when the run failed or
the figure does not exist). -/
def figOf (r : Except Err PState) (i : Nat) : Option Figure :=
  match r with
  | .ok st => st.figs[i]?
  | .error _ => none

/-- The columns of the concrete non-bent file `csv1`. -/
theorem csv1_columns :
    (read_csv csv1 ',').getCol "D" = some ["10", "20", "30"] ∧
    (read_csv csv1 ',').getCol "R_dl" = some ["0.9", "0.5", "0.1"] ∧
    (read_csv csv1 ',').getCol "amp" = some ["1", "2", "3"] ∧
    (read_csv csv1 ',').getCol "deltaEC" = some ["0.1", "0.2", "0.3"] := by
  refine ⟨rfl, rfl, rfl, rfl⟩

/-- The columns of the concrete bent file `csv2`. -/
theorem csv2_columns :
    (read_csv csv2 ',').getCol "D" = some ["10", "20", "30"] ∧
    (read_csv csv2 ',').getCol "R_dl" = some ["0.8", "0.4", "0.05"] ∧
    (read_csv csv2 ',').getCol "amp" = some ["1.1", "2.1", "3.1"] ∧
    (read_csv csv2 ',').getCol "deltaEC" = some ["0.11", "0.21", "0.31"] := by
  refine ⟨rfl, rfl, rfl, rfl⟩

/-- C5: Figure 1 plots `D` (x) vs `R_dl` (y) from the bent table on a
logarithmic y-axis, as a dashed line with circular markers in red, with
legend label "БЧ", x-label "Distance km" and y-label "Rate". -/
theorem claim5_figure1 (fs : FS) (c1 c2 : String)
    (xs1 ys1 xs2 ys2 amps decs : List String)
    (h1 : fs "rate_example.csv" = some c1)
    (h2 : fs "rate_side_bend.csv" = some c2)
    (hxs1 : (read_csv c1 ',').getCol "D" = some xs1)
    (hys1 : (read_csv c1 ',').getCol "R_dl" = some ys1)
    (hxs2 : (read_csv c2 ',').getCol "D" = some xs2)
    (hys2 : (read_csv c2 ',').getCol "R_dl" = some ys2)
    (hamps : (read_csv c2 ',').getCol "amp" = some amps)
    (hdecs : (read_csv c2 ',').getCol "deltaEC" = some decs) :
    figOf (run fs) 0 = some (fig1Expected xs2 ys2) := by
  rw [run_characterization fs c1 c2 xs1 ys1 xs2 ys2 amps decs
        h1 h2 hxs1 hys1 hxs2 hys2 hamps hdecs]
  rfl

/-- Witness for C5 at the spec's end-to-end input. -/
theorem claim5_figure1_witness :
    figOf (run fs0) 0 =
      some (fig1Expected ["10", "20", "30"] ["0.8", "0.4", "0.05"]) :=
  claim5_figure1 fs0 csv1 csv2
    ["10", "20", "30"] ["0.9", "0.5", "0.1"]
    ["10", "20", "30"] ["0.8", "0.4", "0.05"]
    ["1.1", "2.1", "3.1"] ["0.11", "0.21", "0.31"]
    rfl rfl rfl rfl rfl rfl rfl rfl

/-- C4: Figure 2 overlays the non-bent `D` vs `R_dl` curve (solid,
circular markers, blue, label "НЕ БЧ") with the bent curve in exactly the
style of Figure 1 (dashed, circular markers, red, label "БЧ") on one axes
with logarithmic y-axis, y-label "R_dl", legend, grid, and tight layout.
The second conjunct states that the bent line of Figure 2 is literally the
line of Figure 1. -/
theorem claim4_figure2 (fs : FS) (c1 c2 : String)
    (xs1 ys1 xs2 ys2 amps decs : List String)
    (h1 : fs "rate_example.csv" = some c1)
    (h2 : fs "rate_side_bend.csv" = some c2)
    (hxs1 : (read_csv c1 ',').getCol "D" = some xs1)
    (hys1 : (read_csv c1 ',').getCol "R_dl" = some ys1)
    (hxs2 : (read_csv c2 ',').getCol "D" = some xs2)
    (hys2 : (read_csv c2 ',').getCol "R_dl" = some ys2)
    (hamps : (read_csv c2 ',').getCol "amp" = some amps)
    (hdecs : (read_csv c2 ',').getCol "deltaEC" = some decs) :
    figOf (run fs) 1 = some (fig2Expected xs1 ys1 xs2 ys2) ∧
    ((fig2Expected xs1 ys1 xs2 ys2).axes.headI.lines.getLast? =
      some ⟨xs2, ys2, true, "o", "r", "БЧ"⟩ ∧
     (fig1Expected xs2 ys2).axes.headI.lines =
      [⟨xs2, ys2, true, "o", "r", "БЧ"⟩]) := by
  refine ⟨?_, rfl, rfl⟩
  rw [run_characterization fs c1 c2 xs1 ys1 xs2 ys2 amps decs
        h1 h2 hxs1 hys1 hxs2 hys2 hamps hdecs]
  rfl

/-- Witness for C4 at the spec's end-to-end input. -/
theorem claim4_figure2_witness :
    figOf (run fs0) 1 =
      some (fig2Expected ["10", "20", "30"] ["0.9", "0.5", "0.1"]
              ["10", "20", "30"] ["0.8", "0.4", "0.05"]) :=
  (claim4_figure2 fs0 csv1 csv2
    ["10", "20", "30"] ["0.9", "0.5", "0.1"]
    ["10", "20", "30"] ["0.8", "0.4", "0.05"]
    ["1.1", "2.1", "3.1"] ["0.11", "0.21", "0.31"]
    rfl rfl rfl rfl rfl rfl rfl rfl).1

/-- Figure 3 at the moment all three panels are populated but the final
`tight_layout` has not yet run (after statement 32, `axes[2].grid()`). -/
def fig3BeforeTight (xs2 ys2 amps decs : List String) : Figure :=
  { fig3Expected xs2 ys2 amps decs with tightLayoutApplied := false }

/-- C1: Figure 3 is a 3×1 grid of subplots sharing the x-axis (`sharex`),
each panel holding exactly the bent curve (dashed, circular markers, red):
top panel `amp` vs `D` with y-label "amp", the title string
"Зависимости от D", legend and grid; middle panel `R_dl` vs `D` with
logarithmic y-axis, y-label "R_dl", legend, grid; bottom panel `deltaEC`
vs `D` with x-label "D", y-label "deltaEC", legend, grid — all as recorded
in `fig3Expected`.  The second conjunct shows `tight_layout` is applied
only after all three panels are populated: right after the last panel
statement (the first 33 statements) the figure already has its full
content but `tightLayoutApplied` is still false. -/
theorem claim1_figure3 (fs : FS) (c1 c2 : String)
    (xs1 ys1 xs2 ys2 amps decs : List String)
    (h1 : fs "rate_example.csv" = some c1)
    (h2 : fs "rate_side_bend.csv" = some c2)
    (hxs1 : (read_csv c1 ',').getCol "D" = some xs1)
    (hys1 : (read_csv c1 ',').getCol "R_dl" = some ys1)
    (hxs2 : (read_csv c2 ',').getCol "D" = some xs2)
    (hys2 : (read_csv c2 ',').getCol "R_dl" = some ys2)
    (hamps : (read_csv c2 ',').getCol "amp" = some amps)
    (hdecs : (read_csv c2 ',').getCol "deltaEC" = some decs) :
    figOf (run fs) 2 = some (fig3Expected xs2 ys2 amps decs) ∧
    figOf (runUpTo fs 33) 2 = some (fig3BeforeTight xs2 ys2 amps decs) := by
  constructor
  · rw [run_characterization fs c1 c2 xs1 ys1 xs2 ys2 amps decs
          h1 h2 hxs1 hys1 hxs2 hys2 hamps hdecs]
    rfl
  · simp [runUpTo, program, runStmts, step, getVar, getColE, setVar, record,
          onCurFig, modifyLast, Figure.modAx, curFig, initState, Figure.fresh,
          Axis.fresh, h1, h2, hxs1, hys1, hxs2, hys2, hamps, hdecs, figOf,
          fig3BeforeTight, fig3Expected, List.replicate, List.set, List.take]

/-- Witness for C1 at the spec's end-to-end input. -/
theorem claim1_figure3_witness :
    figOf (run fs0) 2 =
      some (fig3Expected ["10", "20", "30"] ["0.8", "0.4", "0.05"]
              ["1.1", "2.1", "3.1"] ["0.11", "0.21", "0.31"]) :=
  (claim1_figure3 fs0 csv1 csv2
    ["10", "20", "30"] ["0.9", "0.5", "0.1"]
    ["10", "20", "30"] ["0.8", "0.4", "0.05"]
    ["1.1", "2.1", "3.1"] ["0.11", "0.21", "0.31"]
    rfl rfl rfl rfl rfl rfl rfl rfl).1

/-- A column whose name appears anywhere in the header resolves, with one
value per data row. -/
theorem getCol_length_of_mem (df : DataFrame) (c : String) (h : c ∈ df.cols) :
    Option.map List.length (df.getCol c) = some df.rows.length := by
  unfold DataFrame.getCol
  cases hf : List.findIdx? (fun x => x = c) df.cols with
  | none =>
    exfalso
    rw [List.findIdx?_eq_none_iff] at hf
    have := hf c h
    simp at this
  | some i => simp

/-- C7: loading a well-formed comma-delimited file whose header row
contains the columns `D`, `R_dl`, `amp`, `deltaEC` (possibly among other
columns) and which has N data rows yields a table of exactly N rows in
which each of the four columns is accessible by name (and yields one value
per row). -/
theorem claim7_loading (content : String) (hdr : String) (rest : List String)
    (hlines : linesOf content = hdr :: rest)
    (hD : "D" ∈ splitLine ',' hdr)
    (hR : "R_dl" ∈ splitLine ',' hdr)
    (hA : "amp" ∈ splitLine ',' hdr)
    (hE : "deltaEC" ∈ splitLine ',' hdr) :
    (read_csv content ',').rows.length = rest.length ∧
    Option.map List.length ((read_csv content ',').getCol "D") = some rest.length ∧
    Option.map List.length ((read_csv content ',').getCol "R_dl") = some rest.length ∧
    Option.map List.length ((read_csv content ',').getCol "amp") = some rest.length ∧
    Option.map List.length ((read_csv content ',').getCol "deltaEC") = some rest.length := by
  have hcsv : read_csv content ',' =
      { cols := splitLine ',' hdr, rows := rest.map (splitLine ',') } := by
    simp [read_csv, hlines]
  have hrows : (read_csv content ',').rows.length = rest.length := by
    rw [hcsv]
    simp
  refine ⟨hrows, ?_, ?_, ?_, ?_⟩
  · rw [← hrows]
    exact getCol_length_of_mem _ _ (by rw [hcsv]; exact hD)
  · rw [← hrows]
    exact getCol_length_of_mem _ _ (by rw [hcsv]; exact hR)
  · rw [← hrows]
    exact getCol_length_of_mem _ _ (by rw [hcsv]; exact hA)
  · rw [← hrows]
    exact getCol_length_of_mem _ _ (by rw [hcsv]; exact hE)

/-- A file whose header holds the four required columns plus an extra
one. -/
def csvExtraCol : String :=
  "D,R_dl,amp,deltaEC,extra\n10,0.9,1,0.1,7\n20,0.5,2,0.2,8\n30,0.1,3,0.3,9"

/-- Witness for C7: a file with an extra fifth column still has 3 data
rows and all four required columns resolve with 3 values each. -/
theorem claim7_loading_witness :
    (read_csv csvExtraCol ',').rows.length = 3 ∧
    Option.map List.length ((read_csv csvExtraCol ',').getCol "D") = some 3 ∧
    Option.map List.length ((read_csv csvExtraCol ',').getCol "R_dl") = some 3 ∧
    Option.map List.length ((read_csv csvExtraCol ',').getCol "amp") = some 3 ∧
    Option.map List.length ((read_csv csvExtraCol ',').getCol "deltaEC") = some 3 :=
  claim7_loading csvExtraCol "D,R_dl,amp,deltaEC,extra"
    ["10,0.9,1,0.1,7", "20,0.5,2,0.2,8", "30,0.1,3,0.3,9"]
    rfl (by decide) (by decide) (by decide) (by decide)

/-- `true` exactly on `Event.load` events. -/
def isLoadEvent : Event → Bool
  | .load _ => true
  | _ => false

/-- A file system with the non-bent file only: the bent file is missing. -/
def fsOnlyNonBent : FS := fun p =>
  if p = "rate_example.csv" then some csv1 else none

/-- C3: if either fixed input path does not resolve, the run aborts with a
`fileNotFound` error on one of the two paths (the uncaught Python
`FileNotFoundError`), and no plotting call ever executes: every state the
interpreter reaches before dying has an empty figure list and a trace of
load events only, so not even a partial figure is produced. -/
theorem claim3_missing_file (fs : FS)
    (h : fs "rate_example.csv" = none ∨ fs "rate_side_bend.csv" = none) :
    (run fs = .error (.fileNotFound "rate_example.csv") ∨
     run fs = .error (.fileNotFound "rate_side_bend.csv")) ∧
    (∀ n st, runUpTo fs n = .ok st → st.figs = [] ∧ st.trace.all isLoadEvent = true) := by
  cases hfs1 : fs "rate_example.csv" with
  | none =>
    refine ⟨Or.inl ?_, ?_⟩
    · simp [run, program, runStmts, step, hfs1]
    · intro n st hst
      match n with
      | 0 =>
        simp [runUpTo, runStmts] at hst
        simp [← hst, initState]
      | (n+1) =>
        exfalso
        simp [runUpTo, program, List.take_succ_cons, runStmts, step, hfs1] at hst
  | some c1 =>
    have hfs2 : fs "rate_side_bend.csv" = none := by
      rcases h with h | h
      · rw [hfs1] at h; exact absurd h (by simp)
      · exact h
    refine ⟨Or.inr ?_, ?_⟩
    · simp [run, program, runStmts, step, hfs1, hfs2]
    · intro n st hst
      match n with
      | 0 =>
        simp [runUpTo, runStmts] at hst
        simp [← hst, initState]
      | 1 =>
        simp [runUpTo, program, List.take_succ_cons, runStmts, step, hfs1,
              setVar, record, initState] at hst
        simp [← hst, isLoadEvent]
      | (n+2) =>
        exfalso
        simp [runUpTo, program, List.take_succ_cons, runStmts, step, hfs1, hfs2,
              setVar, record, initState] at hst

/-- Witness for C3: with the bent file absent the run dies with
`fileNotFound` on one of the two fixed paths. -/
theorem claim3_missing_file_witness :
    run fsOnlyNonBent = .error (.fileNotFound "rate_example.csv") ∨
    run fsOnlyNonBent = .error (.fileNotFound "rate_side_bend.csv") :=
  (claim3_missing_file fsOnlyNonBent (Or.inr (by decide))).1

/-- The figure created by `plt.subplots(3, 1, figsize=(10,15), sharex=True)`
before any panel is drawn. -/
def subplotsFresh : Figure :=
  { nrows := 3, ncols := 1, axes := List.replicate 3 Axis.fresh, sharex := true,
    figsize := some (10, 15), tightLayoutApplied := false }

/-- The interpreter state right after `d = data.head` (the first 18
statements): figures 1 and 2 fully rendered and displayed, figure 3
created empty, nothing of figure 3 drawn yet. -/
def stateBeforeTopPanel (c1 c2 : String) (xs1 ys1 xs2 ys2 : List String) : PState :=
  { data := some (read_csv c1 ','),
    data_scw := some (read_csv c2 ','),
    dvar := some (.boundMethod (read_csv c1 ',') "head"),
    figs := [fig1Expected xs2 ys2, fig2Expected xs1 ys1 xs2 ys2, subplotsFresh],
    trace := expectedTrace.take 17 }

/-- C6: if the bent table lacks the `amp` column, the run dies with the
uncaught `KeyError` (column not found) raised by the very first Figure 3
panel statement `axes[0].plot(data_scw['D'], data_scw['amp'], ...)`: the
first 18 statements still succeed (figures 1 and 2 are built), statement
19 fails, and the whole run propagates that error — nothing is silently
plotted with empty data.  The uncaught error terminates the Python process
with a non-zero status. -/
theorem claim6_missing_amp (fs : FS) (c1 c2 : String)
    (xs1 ys1 xs2 ys2 : List String)
    (h1 : fs "rate_example.csv" = some c1)
    (h2 : fs "rate_side_bend.csv" = some c2)
    (hxs1 : (read_csv c1 ',').getCol "D" = some xs1)
    (hys1 : (read_csv c1 ',').getCol "R_dl" = some ys1)
    (hxs2 : (read_csv c2 ',').getCol "D" = some xs2)
    (hys2 : (read_csv c2 ',').getCol "R_dl" = some ys2)
    (hamp : (read_csv c2 ',').getCol "amp" = none) :
    run fs = .error (.keyError .data_scw "amp") ∧
    runUpTo fs 18 = .ok (stateBeforeTopPanel c1 c2 xs1 ys1 xs2 ys2) ∧
    runUpTo fs 19 = .error (.keyError .data_scw "amp") := by
  refine ⟨?_, ?_, ?_⟩ <;>
    simp [run, runUpTo, program, runStmts, step, getVar, getColE, setVar, record,
          onCurFig, modifyLast, Figure.modAx, curFig, initState, Figure.fresh,
          Axis.fresh, h1, h2, hxs1, hys1, hxs2, hys2, hamp, List.take,
          stateBeforeTopPanel, subplotsFresh, fig1Expected, fig2Expected,
          expectedTrace, List.replicate, List.set]

/-- A bent file with no `amp` column. -/
def csv2NoAmp : String := "D,R_dl,deltaEC\n10,0.8,0.11\n20,0.4,0.21\n30,0.05,0.31"

/-- A file system whose bent table lacks the `amp` column. -/
def fsNoAmp : FS := fun p =>
  if p = "rate_example.csv" then some csv1
  else if p = "rate_side_bend.csv" then some csv2NoAmp
  else none

/-- Witness for C6: with `csv2NoAmp` as the bent file the run dies with
`KeyError` on column `amp` of the bent table. -/
theorem claim6_missing_amp_witness :
    run fsNoAmp = .error (.keyError .data_scw "amp") :=
  (claim6_missing_amp fsNoAmp csv1 csv2NoAmp
    ["10", "20", "30"] ["0.9", "0.5", "0.1"]
    ["10", "20", "30"] ["0.8", "0.4", "0.05"]
    rfl rfl rfl rfl rfl rfl rfl).1

/-- The phase the claimed step order assigns to each event: loads first
(0), then the work on figures 1..3 (1..3), displays last (4). -/
def phaseC2 : Event → Nat
  | .load _ => 0
  | .newFigure k => k + 1
  | .render k => k + 1
  | .display => 4

/-- `true` iff a list of naturals never decreases. -/
def nondecreasing : List Nat → Bool
  | [] => true
  | [_] => true
  | a :: b :: r => Nat.ble a b && nondecreasing (b :: r)

/-- The trace of a run, when it succeeds. -/
def traceOf (r : Except Err PState) : Option (List Event) :=
  match r with
  | .ok st => some st.trace
  | .error _ => none

/-- Counterexample to C2: the claimed step order — load both tables, then
render figure 1, then figure 2, then figure 3, then display all figures —
would make the event phases (`phaseC2`) nondecreasing along the trace.  On
the spec's own end-to-end input the run succeeds and its trace violates
that order: `plt.show()` (phase 4) runs right after figure 1's rendering
and before figure 2's rendering (phase 2). -/
theorem claim2_counterexample :
    Except.map (fun st => nondecreasing (st.trace.map phaseC2)) (run fs0) =
      .ok false := by
  rw [run_characterization fs0 csv1 csv2
        ["10", "20", "30"] ["0.9", "0.5", "0.1"]
        ["10", "20", "30"] ["0.8", "0.4", "0.05"]
        ["1.1", "2.1", "3.1"] ["0.11", "0.21", "0.31"]
        rfl rfl rfl rfl rfl rfl rfl rfl]
  rfl

/-- C2 (amended): control flow is strictly linear — the statements run
once each, in source order, with no branching, no loop over data and no
recursion — and the step order is: load both tables, then for each figure
in turn render it and immediately display it with its own `plt.show()`
(figure k is displayed before figure k+1 is rendered).  On any input on
which the run succeeds with these loaded columns, the trace is exactly
`expectedTrace`, which exhibits that interleaved order. -/
theorem claim2_linear_flow (fs : FS) (c1 c2 : String)
    (xs1 ys1 xs2 ys2 amps decs : List String)
    (h1 : fs "rate_example.csv" = some c1)
    (h2 : fs "rate_side_bend.csv" = some c2)
    (hxs1 : (read_csv c1 ',').getCol "D" = some xs1)
    (hys1 : (read_csv c1 ',').getCol "R_dl" = some ys1)
    (hxs2 : (read_csv c2 ',').getCol "D" = some xs2)
    (hys2 : (read_csv c2 ',').getCol "R_dl" = some ys2)
    (hamps : (read_csv c2 ',').getCol "amp" = some amps)
    (hdecs : (read_csv c2 ',').getCol "deltaEC" = some decs) :
    traceOf (run fs) = some expectedTrace := by
  rw [run_characterization fs c1 c2 xs1 ys1 xs2 ys2 amps decs
        h1 h2 hxs1 hys1 hxs2 hys2 hamps hdecs]
  rfl

/-- Witness for the amended C2 at the spec's end-to-end input. -/
theorem claim2_linear_flow_witness :
    traceOf (run fs0) = some expectedTrace :=
  claim2_linear_flow fs0 csv1 csv2
    ["10", "20", "30"] ["0.9", "0.5", "0.1"]
    ["10", "20", "30"] ["0.8", "0.4", "0.05"]
    ["1.1", "2.1", "3.1"] ["0.11", "0.21", "0.31"]
    rfl rfl rfl rfl rfl rfl rfl rfl

/-- A step depends on the file system only through the path of a read_csv
statement. -/
theorem step_fs_congr (fs1 fs2 : FS) (st : PState) (s : Stmt)
    (h : ∀ tgt path sep, s = .readCsvTo tgt path sep → fs1 path = fs2 path) :
    step fs1 st s = step fs2 st s := by
  cases s <;> try rfl
  case readCsvTo tgt path sep =>
    have hp := h tgt path sep rfl
    simp [step, hp]

/-- A statement list reads the file system only at the paths of its
read_csv statements. -/
theorem runStmts_fs_congr (fs1 fs2 : FS) :
    ∀ (l : List Stmt),
      (∀ tgt path sep, Stmt.readCsvTo tgt path sep ∈ l → fs1 path = fs2 path) →
      ∀ st, runStmts fs1 st l = runStmts fs2 st l := by
  intro l
  induction l with
  | nil => intro _ st; rfl
  | cons s rest ih =>
    intro h st
    have hs : step fs1 st s = step fs2 st s :=
      step_fs_congr fs1 fs2 st s
        (fun tgt path sep he => h tgt path sep (by rw [← he]; exact List.mem_cons_self s rest))
    simp only [runStmts, hs]
    cases hstep : step fs2 st s with
    | error e => rfl
    | ok st' => exact ih (fun tgt path sep hm => h tgt path sep (List.mem_cons_of_mem s hm)) st'

/-- C8: the pipeline is deterministic and accumulates no hidden state: two
invocations whose file systems agree on the two fixed input paths produce
the *same* final state — identical figures (same data points, same
styling), identical traces — whatever else the file systems hold.  Each
invocation starts from `initState`, so a second run of the same files
repeats the first exactly. -/
theorem claim8_no_hidden_state (fs1 fs2 : FS)
    (h1 : fs1 "rate_example.csv" = fs2 "rate_example.csv")
    (h2 : fs1 "rate_side_bend.csv" = fs2 "rate_side_bend.csv") :
    run fs1 = run fs2 := by
  unfold run
  apply runStmts_fs_congr
  intro tgt path sep hmem
  simp [program] at hmem
  rcases hmem with ⟨-, rfl, -⟩ | ⟨-, rfl, -⟩
  · exact h1
  · exact h2

/-- `fs0` plus an unrelated file the script never reads. -/
def fsExtra : FS := fun p =>
  if p = "unrelated.txt" then some "junk" else fs0 p

/-- Witness for C8: adding an unrelated file changes nothing about the
run. -/
theorem claim8_no_hidden_state_witness : run fs0 = run fsExtra :=
  claim8_no_hidden_state fs0 fsExtra rfl rfl

/-- `true` exactly on read_csv statements. -/
def isReadCsv : Stmt → Bool
  | .readCsvTo _ _ _ => true
  | _ => false

/-- The state right after the two load statements. -/
def loadedState (c1 c2 : String) : PState :=
  { data := some (read_csv c1 ','), data_scw := some (read_csv c2 ','),
    dvar := none, figs := [],
    trace := [.load "rate_example.csv", .load "rate_side_bend.csv"] }

/-- A figure operation never touches the two table bindings. -/
theorem onCurFig_fields (st st' : PState) (f : Figure → Except Err Figure)
    (h : onCurFig st f = .ok st') :
    st'.data = st.data ∧ st'.data_scw = st.data_scw := by
  unfold onCurFig at h
  cases hm : modifyLast f st.figs with
  | error e => rw [hm] at h; exact Except.noConfusion h
  | ok figs' =>
    rw [hm] at h
    injection h with h2
    subst h2
    exact ⟨rfl, rfl⟩

/-- No statement other than a read_csv assignment writes either table:
every successful step preserves `data` and `data_scw` unchanged. -/
theorem step_preserves_tables (fs : FS) (st st' : PState) (s : Stmt)
    (hns : isReadCsv s = false)
    (h : step fs st s = .ok st') :
    st'.data = st.data ∧ st'.data_scw = st.data_scw := by
  cases s with
  | readCsvTo tgt path sep => simp [isReadCsv] at hns
  | figure =>
    simp only [step] at h
    injection h with h2
    subst h2
    exact ⟨rfl, rfl⟩
  | semilogy src x y dsh m c lb =>
    simp only [step] at h
    cases hv : getVar st src with
    | error e => simp only [hv] at h; exact Except.noConfusion h
    | ok t =>
      simp only [hv] at h
      cases hx : getColE src t x with
      | error e => simp only [hx] at h; exact Except.noConfusion h
      | ok xs =>
        simp only [hx] at h
        cases hy : getColE src t y with
        | error e => simp only [hy] at h; exact Except.noConfusion h
        | ok ys =>
          simp only [hy] at h
          exact onCurFig_fields st st' _ h
  | xlabel s =>
    simp only [step] at h
    exact onCurFig_fields st st' _ h
  | ylabel s =>
    simp only [step] at h
    exact onCurFig_fields st st' _ h
  | legend =>
    simp only [step] at h
    exact onCurFig_fields st st' _ h
  | grid =>
    simp only [step] at h
    exact onCurFig_fields st st' _ h
  | tightLayout =>
    simp only [step] at h
    exact onCurFig_fields st st' _ h
  | pltShow =>
    simp only [step] at h
    injection h with h2
    subst h2
    exact ⟨rfl, rfl⟩
  | subplots nr nc fsz sx =>
    simp only [step] at h
    injection h with h2
    subst h2
    exact ⟨rfl, rfl⟩
  | bindHead src =>
    simp only [step] at h
    cases hv : getVar st src with
    | error e => simp only [hv] at h; exact Except.noConfusion h
    | ok t =>
      simp only [hv] at h
      injection h with h2
      subst h2
      exact ⟨rfl, rfl⟩
  | axPlot i src x y dsh m c lb =>
    simp only [step] at h
    cases hv : getVar st src with
    | error e => simp only [hv] at h; exact Except.noConfusion h
    | ok t =>
      simp only [hv] at h
      cases hx : getColE src t x with
      | error e => simp only [hx] at h; exact Except.noConfusion h
      | ok xs =>
        simp only [hx] at h
        cases hy : getColE src t y with
        | error e => simp only [hy] at h; exact Except.noConfusion h
        | ok ys =>
          simp only [hy] at h
          exact onCurFig_fields st st' _ h
  | axSetYlabel i s =>
    simp only [step] at h
    exact onCurFig_fields st st' _ h
  | axSetXlabel i s =>
    simp only [step] at h
    exact onCurFig_fields st st' _ h
  | axSetTitle i s =>
    simp only [step] at h
    exact onCurFig_fields st st' _ h
  | axSetYscaleLog i =>
    simp only [step] at h
    exact onCurFig_fields st st' _ h
  | axLegend i =>
    simp only [step] at h
    exact onCurFig_fields st st' _ h
  | axGrid i =>
    simp only [step] at h
    exact onCurFig_fields st st' _ h

/-- Running any read_csv-free statement list leaves both tables exactly as
they were. -/
theorem runStmts_preserves_tables (fs : FS) :
    ∀ (l : List Stmt), (∀ s ∈ l, isReadCsv s = false) →
    ∀ st st', runStmts fs st l = .ok st' →
    st'.data = st.data ∧ st'.data_scw = st.data_scw := by
  intro l
  induction l with
  | nil =>
    intro _ st st' h
    injection h with h2
    subst h2
    exact ⟨rfl, rfl⟩
  | cons s rest ih =>
    intro hnot st st' h
    simp only [runStmts] at h
    cases hstep : step fs st s with
    | error e => simp only [hstep] at h; exact Except.noConfusion h
    | ok st1 =>
      simp only [hstep] at h
      have hstable := step_preserves_tables fs st st1 s
        (hnot s (List.mem_cons_self s rest)) hstep
      have hrest := ih (fun u hm => hnot u (List.mem_cons_of_mem s hm)) st1 st' h
      exact ⟨hrest.1.trans hstable.1, hrest.2.trans hstable.2⟩

/-- Every reachable state holds each table either not yet loaded or exactly
as loaded from its file. -/
def tablesIntact (c1 c2 : String) (r : Except Err PState) : Prop :=
  match r with
  | .error _ => True
  | .ok st =>
    (st.data = none ∨ st.data = some (read_csv c1 ',')) ∧
    (st.data_scw = none ∨ st.data_scw = some (read_csv c2 ','))

/-- C9: both tables are created exactly once at startup by the two loads
and are read-only thereafter: in every state the interpreter reaches, each
table is `none` (not yet loaded) or exactly the value parsed from its
file; moreover the statement `d = data.head` only binds the method object
`data.head` to `d` — it leaves both tables (and the figures) untouched and
calls nothing. -/
theorem claim9_tables_readonly (fs : FS) (c1 c2 : String)
    (h1 : fs "rate_example.csv" = some c1)
    (h2 : fs "rate_side_bend.csv" = some c2) :
    (∀ n, tablesIntact c1 c2 (runUpTo fs n)) ∧
    (∀ st t, st.data = some t →
      step fs st (.bindHead .data) = .ok { st with dvar := some (.boundMethod t "head") }) := by
  constructor
  · intro n
    match n with
    | 0 => simp [runUpTo, runStmts, tablesIntact, initState]
    | 1 =>
      simp [runUpTo, program, List.take_succ_cons, runStmts, step, h1,
            setVar, record, initState, tablesIntact]
    | (n+2) =>
      have key : runUpTo fs (n+2) =
          runStmts fs (loadedState c1 c2) ((program.drop 2).take n) := by
        simp [runUpTo, program, List.take_succ_cons, runStmts, step, h1, h2,
              setVar, record, initState, loadedState, List.drop]
      rw [key]
      have hnoread : ∀ s ∈ program.drop 2, isReadCsv s = false := by decide
      cases hr : runStmts fs (loadedState c1 c2) ((program.drop 2).take n) with
      | error e => simp [tablesIntact]
      | ok st' =>
        have hp := runStmts_preserves_tables fs ((program.drop 2).take n)
          (fun s hm => hnoread s (List.take_subset n (program.drop 2) hm))
          (loadedState c1 c2) st' hr
        have hd : st'.data = some (read_csv c1 ',') := hp.1
        have hs : st'.data_scw = some (read_csv c2 ',') := hp.2
        simp [tablesIntact, hd, hs]
  · intro st t hst
    simp [step, getVar, hst]

/-- Witness for C9: after the first 18 statements on the concrete input,
both tables still hold exactly their loaded values. -/
theorem claim9_tables_readonly_witness :
    tablesIntact csv1 csv2 (runUpTo fs0 18) :=
  (claim9_tables_readonly fs0 csv1 csv2 rfl rfl).1 18

/-- `true` exactly on a `KeyError` raised for the non-bent table `data`. -/
def nonBentKeyErr : Err → Bool
  | .keyError .data _ => true
  | _ => false

/-- The visually observable outcome of a run: the figures and the event
trace on success, the error otherwise. -/
def obs (r : Except Err PState) : Except Err (List Figure × List Event) :=
  Except.map (fun st => (st.figs, st.trace)) r

/-- Whether a run died with a column-not-found error on the non-bent
table. -/
def raisesNonBentKeyErr (r : Except Err PState) : Bool :=
  match r with
  | .error e => nonBentKeyErr e
  | .ok _ => false

/-- Two optional non-bent tables agree on their `D` and `R_dl` columns
(both present with the same values), or are both absent. -/
def OptTblRel (o1 o2 : Option DataFrame) : Prop :=
  match o1, o2 with
  | none, none => True
  | some t1, some t2 =>
    (∃ xs, t1.getCol "D" = some xs ∧ t2.getCol "D" = some xs) ∧
    (∃ ys, t1.getCol "R_dl" = some ys ∧ t2.getCol "R_dl" = some ys)
  | _, _ => False

/-- The noninterference relation between the states of two runs whose
non-bent tables agree on `D` and `R_dl`: figures, traces and the bent
table coincide; the non-bent tables only have to be `OptTblRel`-related
(`dvar` is unconstrained — `d` never feeds into any figure). -/
structure NIRel (st1 st2 : PState) : Prop where
  figs_eq : st1.figs = st2.figs
  trace_eq : st1.trace = st2.trace
  scw_eq : st1.data_scw = st2.data_scw
  data_rel : OptTblRel st1.data st2.data

/-- Lifted relation on step results: both fail with the same error (never
a non-bent `KeyError`), or both succeed with related states. -/
def StepRel (r1 r2 : Except Err PState) : Prop :=
  (∃ e, r1 = .error e ∧ r2 = .error e ∧ nonBentKeyErr e = false) ∨
  (∃ u1 u2, r1 = .ok u1 ∧ r2 = .ok u2 ∧ NIRel u1 u2)

/-- A statement may touch the non-bent table `data` only through the
columns `D` and `R_dl` (and must not be a load).  Every statement of the
program after the loads satisfies this. -/
def dataColsOK : Stmt → Bool
  | .readCsvTo _ _ _ => false
  | .semilogy .data x y _ _ _ _ => (x == "D" || x == "R_dl") && (y == "D" || y == "R_dl")
  | .axPlot _ .data x y _ _ _ _ => (x == "D" || x == "R_dl") && (y == "D" || y == "R_dl")
  | _ => true

/-- A failing column access raises exactly the `KeyError` of its table
and column. -/
theorem getColE_error (src : Var) (t : DataFrame) (col : String) (e : Err)
    (h : getColE src t col = .error e) : e = .keyError src col := by
  unfold getColE at h
  cases hg : t.getCol col with
  | none => simp only [hg] at h; injection h with h2; exact h2.symm
  | some l => simp only [hg] at h; exact Except.noConfusion h

/-- A failing axes update raises exactly `noAxis`. -/
theorem modAx_error (fig : Figure) (i : Nat) (g : Axis → Axis) (e : Err)
    (h : fig.modAx i g = .error e) : e = .noAxis i := by
  unfold Figure.modAx at h
  split at h
  · exact Except.noConfusion h
  · injection h with h2; exact h2.symm

/-- If the per-figure update never raises a non-bent `KeyError`, neither
does updating the current figure. -/
theorem modifyLast_error (f : Figure → Except Err Figure)
    (hf : ∀ fig e, f fig = .error e → nonBentKeyErr e = false) :
    ∀ (l : List Figure) (e : Err), modifyLast f l = .error e → nonBentKeyErr e = false
  | [], e, h => by
      simp only [modifyLast] at h
      injection h with h2
      rw [← h2]
      rfl
  | [a], e, h => by
      simp only [modifyLast] at h
      cases hfa : f a with
      | ok a' => simp only [hfa] at h; exact Except.noConfusion h
      | error e' =>
          simp only [hfa] at h
          injection h with h2
          rw [← h2]
          exact hf a e' hfa
  | a :: b :: rest, e, h => by
      simp only [modifyLast] at h
      cases hm : modifyLast f (b :: rest) with
      | ok l' => simp only [hm] at h; exact Except.noConfusion h
      | error e' =>
          simp only [hm] at h
          injection h with h2
          rw [← h2]
          exact modifyLast_error f hf (b :: rest) e' hm

/-- A common figure operation preserves the noninterference relation. -/
theorem onCurFig_rel (st1 st2 : PState) (f : Figure → Except Err Figure)
    (hrel : NIRel st1 st2)
    (hf : ∀ fig e, f fig = .error e → nonBentKeyErr e = false) :
    StepRel (onCurFig st1 f) (onCurFig st2 f) := by
  obtain ⟨hfigs, htrace, hscw, hdata⟩ := hrel
  unfold onCurFig curFig record
  rw [hfigs]
  cases hm : modifyLast f st2.figs with
  | error e =>
    left
    exact ⟨e, rfl, rfl, modifyLast_error f hf st2.figs e hm⟩
  | ok figs' =>
    right
    refine ⟨_, _, rfl, rfl, ?_⟩
    exact ⟨rfl, by rw [htrace], hscw, hdata⟩

/-- One step of two related runs stays related, provided the statement
touches the non-bent table only through `D` and `R_dl`. -/
theorem step_rel (fs1 fs2 : FS) (st1 st2 : PState) (s : Stmt)
    (hok : dataColsOK s = true) (hrel : NIRel st1 st2) :
    StepRel (step fs1 st1 s) (step fs2 st2 s) := by
  obtain ⟨hfigs, htrace, hscw, hdata⟩ := hrel
  cases s with
  | readCsvTo tgt path sep => simp [dataColsOK] at hok
  | figure =>
    right
    refine ⟨_, _, rfl, rfl, ?_⟩
    exact ⟨by simp [record, hfigs], by simp [record, htrace, hfigs], by simp [record, hscw],
           by simpa [record] using hdata⟩
  | pltShow =>
    right
    refine ⟨_, _, rfl, rfl, ?_⟩
    exact ⟨by simp [record, hfigs], by simp [record, htrace], by simp [record, hscw],
           by simpa [record] using hdata⟩
  | subplots nr nc fsz sx =>
    right
    refine ⟨_, _, rfl, rfl, ?_⟩
    exact ⟨by simp [record, hfigs], by simp [record, htrace, hfigs], by simp [record, hscw],
           by simpa [record] using hdata⟩
  | xlabel s0 =>
    exact onCurFig_rel st1 st2 _ ⟨hfigs, htrace, hscw, hdata⟩
      (fun fig e he => by rw [modAx_error fig 0 _ e he]; rfl)
  | ylabel s0 =>
    exact onCurFig_rel st1 st2 _ ⟨hfigs, htrace, hscw, hdata⟩
      (fun fig e he => by rw [modAx_error fig 0 _ e he]; rfl)
  | legend =>
    exact onCurFig_rel st1 st2 _ ⟨hfigs, htrace, hscw, hdata⟩
      (fun fig e he => by rw [modAx_error fig 0 _ e he]; rfl)
  | grid =>
    exact onCurFig_rel st1 st2 _ ⟨hfigs, htrace, hscw, hdata⟩
      (fun fig e he => by rw [modAx_error fig 0 _ e he]; rfl)
  | tightLayout =>
    exact onCurFig_rel st1 st2 _ ⟨hfigs, htrace, hscw, hdata⟩
      (fun fig e he => Except.noConfusion he)
  | axSetYlabel i s0 =>
    exact onCurFig_rel st1 st2 _ ⟨hfigs, htrace, hscw, hdata⟩
      (fun fig e he => by rw [modAx_error fig i _ e he]; rfl)
  | axSetXlabel i s0 =>
    exact onCurFig_rel st1 st2 _ ⟨hfigs, htrace, hscw, hdata⟩
      (fun fig e he => by rw [modAx_error fig i _ e he]; rfl)
  | axSetTitle i s0 =>
    exact onCurFig_rel st1 st2 _ ⟨hfigs, htrace, hscw, hdata⟩
      (fun fig e he => by rw [modAx_error fig i _ e he]; rfl)
  | axSetYscaleLog i =>
    exact onCurFig_rel st1 st2 _ ⟨hfigs, htrace, hscw, hdata⟩
      (fun fig e he => by rw [modAx_error fig i _ e he]; rfl)
  | axLegend i =>
    exact onCurFig_rel st1 st2 _ ⟨hfigs, htrace, hscw, hdata⟩
      (fun fig e he => by rw [modAx_error fig i _ e he]; rfl)
  | axGrid i =>
    exact onCurFig_rel st1 st2 _ ⟨hfigs, htrace, hscw, hdata⟩
      (fun fig e he => by rw [modAx_error fig i _ e he]; rfl)
  | bindHead src =>
    cases src with
    | d =>
      left
      exact ⟨.nameError .d, by simp [step, getVar], by simp [step, getVar], rfl⟩
    | data_scw =>
      cases hd : st1.data_scw with
      | none =>
        have hd2 : st2.data_scw = none := hscw.symm.trans hd
        left
        exact ⟨.nameError .data_scw, by simp [step, getVar, hd], by simp [step, getVar, hd2], rfl⟩
      | some t =>
        have hd2 : st2.data_scw = some t := hscw.symm.trans hd
        have g1 : step fs1 st1 (.bindHead .data_scw) =
            .ok { st1 with dvar := some (.boundMethod t "head") } := by
          simp [step, getVar, hd]
        have g2 : step fs2 st2 (.bindHead .data_scw) =
            .ok { st2 with dvar := some (.boundMethod t "head") } := by
          simp [step, getVar, hd2]
        right
        exact ⟨_, _, g1, g2, ⟨hfigs, htrace, hscw, hdata⟩⟩
    | data =>
      cases hd1 : st1.data with
      | none =>
        cases hd2 : st2.data with
        | none =>
          left
          exact ⟨.nameError .data, by simp [step, getVar, hd1], by simp [step, getVar, hd2], rfl⟩
        | some t2 =>
          rw [hd1, hd2] at hdata
          simp [OptTblRel] at hdata
      | some t1 =>
        cases hd2 : st2.data with
        | none =>
          rw [hd1, hd2] at hdata
          simp [OptTblRel] at hdata
        | some t2 =>
          have g1 : step fs1 st1 (.bindHead .data) =
              .ok { st1 with dvar := some (.boundMethod t1 "head") } := by
            simp [step, getVar, hd1]
          have g2 : step fs2 st2 (.bindHead .data) =
              .ok { st2 with dvar := some (.boundMethod t2 "head") } := by
            simp [step, getVar, hd2]
          right
          exact ⟨_, _, g1, g2, ⟨hfigs, htrace, hscw, hdata⟩⟩
  | semilogy src x y dsh m c lb =>
    cases src with
    | d =>
      left
      exact ⟨.nameError .d, by simp [step, getVar], by simp [step, getVar], rfl⟩
    | data_scw =>
      cases hd : st1.data_scw with
      | none =>
        have hd2 : st2.data_scw = none := hscw.symm.trans hd
        left
        exact ⟨.nameError .data_scw, by simp [step, getVar, hd], by simp [step, getVar, hd2], rfl⟩
      | some t =>
        have hd2 : st2.data_scw = some t := hscw.symm.trans hd
        cases hx : getColE .data_scw t x with
        | error e =>
          left
          refine ⟨e, by simp [step, getVar, hd, hx], by simp [step, getVar, hd2, hx], ?_⟩
          rw [getColE_error .data_scw t x e hx]
          rfl
        | ok xs1 =>
          cases hy : getColE .data_scw t y with
          | error e =>
            left
            refine ⟨e, by simp [step, getVar, hd, hx, hy], by simp [step, getVar, hd2, hx, hy], ?_⟩
            rw [getColE_error .data_scw t y e hy]
            rfl
          | ok ys1 =>
            have g1 : step fs1 st1 (.semilogy .data_scw x y dsh m c lb) =
                onCurFig st1 (fun fig => fig.modAx 0 (fun a =>
                  { a with lines := a.lines ++ [⟨xs1, ys1, dsh, m, c, lb⟩], yLog := true })) := by
              simp [step, getVar, hd, hx, hy]
            have g2 : step fs2 st2 (.semilogy .data_scw x y dsh m c lb) =
                onCurFig st2 (fun fig => fig.modAx 0 (fun a =>
                  { a with lines := a.lines ++ [⟨xs1, ys1, dsh, m, c, lb⟩], yLog := true })) := by
              simp [step, getVar, hd2, hx, hy]
            rw [g1, g2]
            exact onCurFig_rel st1 st2 _ ⟨hfigs, htrace, hscw, hdata⟩
              (fun fig e he => by rw [modAx_error fig 0 _ e he]; rfl)
    | data =>
      simp only [dataColsOK, Bool.and_eq_true, Bool.or_eq_true, beq_iff_eq] at hok
      obtain ⟨hx0, hy0⟩ := hok
      cases hd1 : st1.data with
      | none =>
        cases hd2 : st2.data with
        | none =>
          left
          exact ⟨.nameError .data, by simp [step, getVar, hd1], by simp [step, getVar, hd2], rfl⟩
        | some t2 =>
          rw [hd1, hd2] at hdata
          simp [OptTblRel] at hdata
      | some t1 =>
        cases hd2 : st2.data with
        | none =>
          rw [hd1, hd2] at hdata
          simp [OptTblRel] at hdata
        | some t2 =>
          rw [hd1, hd2] at hdata
          simp only [OptTblRel] at hdata
          obtain ⟨⟨xs0, hxa, hxb⟩, ⟨ys0, hya, hyb⟩⟩ := hdata
          have hcx : ∃ v, t1.getCol x = some v ∧ t2.getCol x = some v := by
            rcases hx0 with rfl | rfl
            · exact ⟨xs0, hxa, hxb⟩
            · exact ⟨ys0, hya, hyb⟩
          have hcy : ∃ v, t1.getCol y = some v ∧ t2.getCol y = some v := by
            rcases hy0 with rfl | rfl
            · exact ⟨xs0, hxa, hxb⟩
            · exact ⟨ys0, hya, hyb⟩
          obtain ⟨vx, hvx1, hvx2⟩ := hcx
          obtain ⟨vy, hvy1, hvy2⟩ := hcy
          have g1 : step fs1 st1 (.semilogy .data x y dsh m c lb) =
              onCurFig st1 (fun fig => fig.modAx 0 (fun a =>
                { a with lines := a.lines ++ [⟨vx, vy, dsh, m, c, lb⟩], yLog := true })) := by
            simp [step, getVar, hd1, getColE, hvx1, hvy1]
          have g2 : step fs2 st2 (.semilogy .data x y dsh m c lb) =
              onCurFig st2 (fun fig => fig.modAx 0 (fun a =>
                { a with lines := a.lines ++ [⟨vx, vy, dsh, m, c, lb⟩], yLog := true })) := by
            simp [step, getVar, hd2, getColE, hvx2, hvy2]
          rw [g1, g2]
          refine onCurFig_rel st1 st2 _ ⟨hfigs, htrace, hscw, ?_⟩
            (fun fig e he => by rw [modAx_error fig 0 _ e he]; rfl)
          rw [hd1, hd2]
          exact ⟨⟨xs0, hxa, hxb⟩, ⟨ys0, hya, hyb⟩⟩
  | axPlot i src x y dsh m c lb =>
    cases src with
    | d =>
      left
      exact ⟨.nameError .d, by simp [step, getVar], by simp [step, getVar], rfl⟩
    | data_scw =>
      cases hd : st1.data_scw with
      | none =>
        have hd2 : st2.data_scw = none := hscw.symm.trans hd
        left
        exact ⟨.nameError .data_scw, by simp [step, getVar, hd], by simp [step, getVar, hd2], rfl⟩
      | some t =>
        have hd2 : st2.data_scw = some t := hscw.symm.trans hd
        cases hx : getColE .data_scw t x with
        | error e =>
          left
          refine ⟨e, by simp [step, getVar, hd, hx], by simp [step, getVar, hd2, hx], ?_⟩
          rw [getColE_error .data_scw t x e hx]
          rfl
        | ok xs1 =>
          cases hy : getColE .data_scw t y with
          | error e =>
            left
            refine ⟨e, by simp [step, getVar, hd, hx, hy], by simp [step, getVar, hd2, hx, hy], ?_⟩
            rw [getColE_error .data_scw t y e hy]
            rfl
          | ok ys1 =>
            have g1 : step fs1 st1 (.axPlot i .data_scw x y dsh m c lb) =
                onCurFig st1 (fun fig => fig.modAx i (fun a =>
                  { a with lines := a.lines ++ [⟨xs1, ys1, dsh, m, c, lb⟩] })) := by
              simp [step, getVar, hd, hx, hy]
            have g2 : step fs2 st2 (.axPlot i .data_scw x y dsh m c lb) =
                onCurFig st2 (fun fig => fig.modAx i (fun a =>
                  { a with lines := a.lines ++ [⟨xs1, ys1, dsh, m, c, lb⟩] })) := by
              simp [step, getVar, hd2, hx, hy]
            rw [g1, g2]
            exact onCurFig_rel st1 st2 _ ⟨hfigs, htrace, hscw, hdata⟩
              (fun fig e he => by rw [modAx_error fig i _ e he]; rfl)
    | data =>
      simp only [dataColsOK, Bool.and_eq_true, Bool.or_eq_true, beq_iff_eq] at hok
      obtain ⟨hx0, hy0⟩ := hok
      cases hd1 : st1.data with
      | none =>
        cases hd2 : st2.data with
        | none =>
          left
          exact ⟨.nameError .data, by simp [step, getVar, hd1], by simp [step, getVar, hd2], rfl⟩
        | some t2 =>
          rw [hd1, hd2] at hdata
          simp [OptTblRel] at hdata
      | some t1 =>
        cases hd2 : st2.data with
        | none =>
          rw [hd1, hd2] at hdata
          simp [OptTblRel] at hdata
        | some t2 =>
          rw [hd1, hd2] at hdata
          simp only [OptTblRel] at hdata
          obtain ⟨⟨xs0, hxa, hxb⟩, ⟨ys0, hya, hyb⟩⟩ := hdata
          have hcx : ∃ v, t1.getCol x = some v ∧ t2.getCol x = some v := by
            rcases hx0 with rfl | rfl
            · exact ⟨xs0, hxa, hxb⟩
            · exact ⟨ys0, hya, hyb⟩
          have hcy : ∃ v, t1.getCol y = some v ∧ t2.getCol y = some v := by
            rcases hy0 with rfl | rfl
            · exact ⟨xs0, hxa, hxb⟩
            · exact ⟨ys0, hya, hyb⟩
          obtain ⟨vx, hvx1, hvx2⟩ := hcx
          obtain ⟨vy, hvy1, hvy2⟩ := hcy
          have g1 : step fs1 st1 (.axPlot i .data x y dsh m c lb) =
              onCurFig st1 (fun fig => fig.modAx i (fun a =>
                { a with lines := a.lines ++ [⟨vx, vy, dsh, m, c, lb⟩] })) := by
            simp [step, getVar, hd1, getColE, hvx1, hvy1]
          have g2 : step fs2 st2 (.axPlot i .data x y dsh m c lb) =
              onCurFig st2 (fun fig => fig.modAx i (fun a =>
                { a with lines := a.lines ++ [⟨vx, vy, dsh, m, c, lb⟩] })) := by
            simp [step, getVar, hd2, getColE, hvx2, hvy2]
          rw [g1, g2]
          refine onCurFig_rel st1 st2 _ ⟨hfigs, htrace, hscw, ?_⟩
            (fun fig e he => by rw [modAx_error fig i _ e he]; rfl)
          rw [hd1, hd2]
          exact ⟨⟨xs0, hxa, hxb⟩, ⟨ys0, hya, hyb⟩⟩

/-- `step_rel` lifted to statement lists. -/
theorem runStmts_rel (fs1 fs2 : FS) :
    ∀ (l : List Stmt), (∀ s ∈ l, dataColsOK s = true) →
    ∀ st1 st2, NIRel st1 st2 →
    StepRel (runStmts fs1 st1 l) (runStmts fs2 st2 l) := by
  intro l
  induction l with
  | nil =>
    intro _ st1 st2 hrel
    right
    exact ⟨st1, st2, rfl, rfl, hrel⟩
  | cons s rest ih =>
    intro hok st1 st2 hrel
    have hs := step_rel fs1 fs2 st1 st2 s (hok s (List.mem_cons_self s rest)) hrel
    rcases hs with ⟨e, he1, he2, hne⟩ | ⟨u1, u2, hu1, hu2, hrel'⟩
    · left
      exact ⟨e, by simp only [runStmts, he1], by simp only [runStmts, he2], hne⟩
    · simp only [runStmts, hu1, hu2]
      exact ih (fun u hm => hok u (List.mem_cons_of_mem s hm)) u1 u2 hrel'

/-- C10: the rendered output depends on the non-bent table only through
its `D` and `R_dl` columns.  For two runs whose non-bent input files agree
on those two columns — even if their `amp` and `deltaEC` columns differ or
are entirely absent — and whose bent file is the same, the observable
outcome (all figures and the whole event trace, or the error) is
identical, and neither run ever fails with a column-not-found error on the
non-bent table. -/
theorem claim10_nonbent_cols (fs1 fs2 : FS) (c1 c1' c2 : String)
    (xs ys : List String)
    (ha1 : fs1 "rate_example.csv" = some c1)
    (ha2 : fs2 "rate_example.csv" = some c1')
    (hb1 : fs1 "rate_side_bend.csv" = some c2)
    (hb2 : fs2 "rate_side_bend.csv" = some c2)
    (hD1 : (read_csv c1 ',').getCol "D" = some xs)
    (hD2 : (read_csv c1' ',').getCol "D" = some xs)
    (hR1 : (read_csv c1 ',').getCol "R_dl" = some ys)
    (hR2 : (read_csv c1' ',').getCol "R_dl" = some ys) :
    obs (run fs1) = obs (run fs2) ∧
    raisesNonBentKeyErr (run fs1) = false ∧
    raisesNonBentKeyErr (run fs2) = false := by
  have k1 : run fs1 = runStmts fs1 (loadedState c1 c2) (program.drop 2) := by
    simp [run, program, runStmts, step, ha1, hb1, setVar, record, initState,
          loadedState, List.drop]
  have k2 : run fs2 = runStmts fs2 (loadedState c1' c2) (program.drop 2) := by
    simp [run, program, runStmts, step, ha2, hb2, setVar, record, initState,
          loadedState, List.drop]
  have hok : ∀ s ∈ program.drop 2, dataColsOK s = true := by decide
  have hrel0 : NIRel (loadedState c1 c2) (loadedState c1' c2) := by
    refine ⟨rfl, rfl, rfl, ?_⟩
    exact ⟨⟨xs, hD1, hD2⟩, ⟨ys, hR1, hR2⟩⟩
  have hsr := runStmts_rel fs1 fs2 (program.drop 2) hok _ _ hrel0
  rw [k1, k2]
  rcases hsr with ⟨e, he1, he2, hne⟩ | ⟨u1, u2, hu1, hu2, hrel'⟩
  · rw [he1, he2]
    exact ⟨rfl, by simp [raisesNonBentKeyErr, hne], by simp [raisesNonBentKeyErr, hne]⟩
  · rw [hu1, hu2]
    obtain ⟨hfigs, htrace, -, -⟩ := hrel'
    exact ⟨by simp [obs, Except.map, hfigs, htrace], rfl, rfl⟩

/-- A non-bent file agreeing with `csv1` on `D` and `R_dl` but lacking the
`amp` and `deltaEC` columns entirely. -/
def csv1NoExtras : String := "D,R_dl\n10,0.9\n20,0.5\n30,0.1"

/-- `fs0` with the non-bent file replaced by `csv1NoExtras`. -/
def fsAlt : FS := fun p =>
  if p = "rate_example.csv" then some csv1NoExtras
  else if p = "rate_side_bend.csv" then some csv2
  else none

/-- Witness for C10: swapping in the column-stripped non-bent file leaves
all three figures and the trace unchanged, with no non-bent `KeyError`. -/
theorem claim10_nonbent_cols_witness :
    obs (run fs0) = obs (run fsAlt) ∧
    raisesNonBentKeyErr (run fs0) = false ∧
    raisesNonBentKeyErr (run fsAlt) = false :=
  claim10_nonbent_cols fs0 fsAlt csv1 csv1NoExtras csv2
    ["10", "20", "30"] ["0.9", "0.5", "0.1"]
    rfl rfl rfl rfl rfl rfl rfl rfl
